import Mathlib

/-!
Shallow embedding of `sdjournal` (`src/lib.rs`), a Rust FFI wrapper around the
systemd journal C library.

Modelling conventions:
* A Rust `String` / `&str` / byte buffer handed over by the native library is
  modelled as `List Nat` (its UTF-8 bytes).  Rust `String::from_utf8(v).unwrap()`
  keeps the bytes and aborts the program when `v` is not valid UTF-8, so it is
  modelled as a UTF-8 validity check whose failure is the `panicked` outcome.
* The behaviour of the native library is not part of this repository; every FFI call
  result (return codes, buffers, the handle written by `sd_journal_open`, the
  `strerror_r` text used by `error_string`) is a parameter of the embedded
  function.
* Each operation returns the pair of its Rust result and the list of native
  calls it performed, so that lifecycle properties (which operation closes the
  handle, what `sd_journal_wait` is called with) can be stated.
* `c_int` values are modelled as `Int`; `u64` as `Nat` (`u64MAX = 2 ^ 64 - 1`);
  a `u8` as a `Nat` (callers bound it by 255 where it matters).
-/

set_option autoImplicit false

/-- Outcome of running a Rust function returning `Result<α, ε>`: `Ok`, `Err`,
or an aborted execution (an `unwrap`/slice-index panic). -/
inductive RustOutcome (ε α : Type) where
  | ok (a : α)
  | err (e : ε)
  | panicked
deriving DecidableEq, Repr

/-- Outcome of `Iterator::next`, which returns
`Option<Result<HashMap<String,String>, ClibraryError>>`. -/
inductive IterResult (ε α : Type) where
  | stop
  | item_ok (a : α)
  | item_err (e : ε)
  | panicked
deriving DecidableEq, Repr

/-- The native calls the wrapper can perform, each recording the arguments the
wrapper passes to the C library (the opaque handle is modelled as a `Nat`). -/
inductive NativeCall where
  | openJournal (flags : Int)
  | next (handle : Nat)
  | getData (handle : Nat) (field : List Nat)
  | close (handle : Nat)
  | wait (handle : Nat) (timeout_usec : Nat)
  | seekTail (handle : Nat)
  | send (fields : List (List Nat))
  | restartData (handle : Nat)
  | enumerateData (handle : Nat)
deriving DecidableEq, Repr

/-- `true` exactly for `NativeCall.close`. -/
def NativeCall.isClose : NativeCall → Bool
  | .close _ => true
  | _ => false

/-- ASCII string literal as its byte list (all literals used by the wrapper are
ASCII, where code points and UTF-8 bytes coincide). -/
def ascii (s : String) : List Nat :=
  s.data.map Char.toNat

/-- A UTF-8 continuation byte (`0x80 ..= 0xBF`). -/
def utf8ContByte (b : Nat) : Bool :=
  0x80 ≤ b && b ≤ 0xBF

/-- Validity of a byte list as UTF-8, as checked by the Rust standard
`String::from_utf8` (RFC 3629: no overlong forms, no surrogates,
code points ≤ U+10FFFF). -/
def utf8Valid : List Nat → Bool
  | [] => true
  | b :: rest =>
    if b ≤ 0x7F then utf8Valid rest
    else if 0xC2 ≤ b && b ≤ 0xDF then
      match rest with
      | c :: r => utf8ContByte c && utf8Valid r
      | [] => false
    else if 0xE0 ≤ b && b ≤ 0xEF then
      match rest with
      | c :: d :: r =>
        (if b = 0xE0 then 0xA0 ≤ c && c ≤ 0xBF
         else if b = 0xED then 0x80 ≤ c && c ≤ 0x9F
         else utf8ContByte c) && utf8ContByte d && utf8Valid r
      | _ => false
    else if 0xF0 ≤ b && b ≤ 0xF4 then
      match rest with
      | c :: d :: e :: r =>
        (if b = 0xF0 then 0x90 ≤ c && c ≤ 0xBF
         else if b = 0xF4 then 0x80 ≤ c && c ≤ 0x8F
         else utf8ContByte c) && utf8ContByte d && utf8ContByte e && utf8Valid r
      | _ => false
    else false

/-- `src/lib.rs` `ClibraryError`: message, raw native return code, and the
`strerror` text computed from it. -/
structure ClibraryError where
  message : String
  return_code : Int
  err_reason : String
deriving DecidableEq, Repr

/-- `src/lib.rs` `ClibraryError::new`.  `error_string` wraps the C
`strerror_r` call; its text is a parameter `strerror` of the embedding, and
`new` applies it to the negated return code. -/
def ClibraryError.new (strerror : Int → String) (error_msg : String)
    (return_code : Int) : ClibraryError :=
  { message := error_msg
    return_code := return_code
    err_reason := strerror (-return_code) }

/-- `src/lib.rs` `SdJournalOpen` (only `LocalOnly = 1 << 0` is live). -/
inductive SdJournalOpen where
  | LocalOnly
deriving DecidableEq, Repr

/-- The `c_int` value of an `SdJournalOpen` flag. -/
def SdJournalOpen.val : SdJournalOpen → Int
  | .LocalOnly => 1

/-- `src/lib.rs` `SdJournalWait` wakeup event types. -/
inductive SdJournalWait where
  | Nop
  | Append
  | Invalidate
deriving DecidableEq, Repr

/-- The `i32` value of an `SdJournalWait` event (`Nop = 0`, `Append = 1`,
`Invalidate = 2`). -/
def SdJournalWait.val : SdJournalWait → Int
  | .Nop => 0
  | .Append => 1
  | .Invalidate => 2

/-- Rust `u64::MAX`. -/
def u64MAX : Nat := 2 ^ 64 - 1

/-- `src/lib.rs` `struct Journal`: the opaque native handle and the public
`timeout_us` configuration. -/
structure Journal where
  handle : Nat
  timeout_us : Nat
deriving DecidableEq, Repr

/-- `impl Drop for Journal`: dropping the wrapper performs exactly one
`sd_journal_close` on its handle and yields nothing. -/
def Journal.drop (j : Journal) : Unit × List NativeCall :=
  ((), [NativeCall.close j.handle])

/-- `Journal::new`.  `rc` is what the native `sd_journal_open` returns and
`native_handle` the handle it writes through the out-parameter. -/
def Journal.new (strerror : Int → String) (native_handle : Nat) (rc : Int) :
    RustOutcome ClibraryError Journal × List NativeCall :=
  if rc ≠ 0 then
    (.err (ClibraryError.new strerror "Error on sd_journal_open" rc),
     [NativeCall.openJournal SdJournalOpen.LocalOnly.val])
  else
    (.ok { handle := native_handle, timeout_us := u64MAX },
     [NativeCall.openJournal SdJournalOpen.LocalOnly.val])

/-- `Journal::get_log_entry`.  `rc` is the native `sd_journal_get_data` return
code and `buf` the length-prefixed `KEY=value` buffer it exposes (its `len` is
`buf.length`).  `CString::new(key).unwrap()` aborts on an interior NUL byte;
on success the code takes `slice[8..len]` (a panic when `len < 8`) and decodes
it with `String::from_utf8(..).unwrap()`. -/
def Journal.get_log_entry (strerror : Int → String) (j : Journal)
    (key : List Nat) (rc : Int) (buf : List Nat) :
    RustOutcome ClibraryError (List Nat) × List NativeCall :=
  if key.contains 0 then (.panicked, [])
  else if rc = 0 then
    if buf.length < 8 then (.panicked, [NativeCall.getData j.handle key])
    else if utf8Valid (buf.drop 8) then
      (.ok (buf.drop 8), [NativeCall.getData j.handle key])
    else (.panicked, [NativeCall.getData j.handle key])
  else if rc = -2 then (.ok [], [NativeCall.getData j.handle key])
  else
    (.err (ClibraryError.new strerror "Error on sd_journal_get_data" rc),
     [NativeCall.getData j.handle key])

/-- `Journal::seek_tail`.  `rc` is the native `sd_journal_seek_tail` return
code. -/
def Journal.seek_tail (strerror : Int → String) (j : Journal) (rc : Int) :
    RustOutcome ClibraryError Bool × List NativeCall :=
  if rc < 0 then
    (.err (ClibraryError.new strerror "Error on sd_journal_seek_tail" rc),
     [NativeCall.seekTail j.handle])
  else (.ok true, [NativeCall.seekTail j.handle])

/-- Rust `HashMap::insert` on the assoc-list model of `HashMap<String,String>`:
replaces any existing binding of the key. -/
def hashMapInsert (m : List (List Nat × List Nat)) (k v : List Nat) :
    List (List Nat × List Nat) :=
  (k, v) :: m.filter (fun p => !(p.fst == k))

/-- Rust `HashMap::get` on the assoc-list model. -/
def hashMapGet (m : List (List Nat × List Nat)) (k : List Nat) :
    Option (List Nat) :=
  (m.find? (fun p => p.fst == k)).map (fun p => p.snd)

/-- The `loop` in `Journal::get_log_entry_map`: `bufs` are the buffers the
successive `sd_journal_enumerate_data` calls expose while returning `rc > 0`,
`final_rc ≤ 0` is the return code that ends the loop (`< 0` is a library
error, `0` ends enumeration).  Each buffer is decoded whole
(`String::from_utf8(..).unwrap()`), split at the first `=` (byte 61) when one
exists — buffers without `=` are skipped — and the key and value slices are
decoded and inserted. -/
def getLogEntryMapLoop (strerror : Int → String) (handle : Nat)
    (final_rc : Int) :
    List (List Nat) → List (List Nat × List Nat) →
    RustOutcome ClibraryError (List (List Nat × List Nat)) × List NativeCall
  | [], result =>
    (if final_rc < 0 then
      .err (ClibraryError.new strerror "Error on sd_journal_get_data" final_rc)
     else .ok result,
     [NativeCall.enumerateData handle])
  | buf :: rest, result =>
    if utf8Valid buf then
      match List.findIdx? (fun x => x == 61) buf with
      | some m =>
        if utf8Valid (List.take m buf) then
          if utf8Valid (List.drop (m + 1) buf) then
            let r := getLogEntryMapLoop strerror handle final_rc rest
              (hashMapInsert result (List.take m buf) (List.drop (m + 1) buf))
            (r.fst, NativeCall.enumerateData handle :: r.snd)
          else (.panicked, [NativeCall.enumerateData handle])
        else (.panicked, [NativeCall.enumerateData handle])
      | none =>
        let r := getLogEntryMapLoop strerror handle final_rc rest result
        (r.fst, NativeCall.enumerateData handle :: r.snd)
    else (.panicked, [NativeCall.enumerateData handle])

/-- `Journal::get_log_entry_map`: `sd_journal_restart_data` first, then the
enumeration loop starting from the empty map. -/
def Journal.get_log_entry_map (strerror : Int → String) (j : Journal)
    (bufs : List (List Nat)) (final_rc : Int) :
    RustOutcome ClibraryError (List (List Nat × List Nat)) × List NativeCall :=
  let r := getLogEntryMapLoop strerror j.handle final_rc bufs []
  (r.fst, NativeCall.restartData j.handle :: r.snd)

/-- Decimal ASCII rendering of a `Nat`, as Rust `format!("{}", n)` produces
for an unsigned integer. -/
def decBytes (n : Nat) : List Nat :=
  (Nat.toDigits 10 n).map Char.toNat

/-- The `match priority` table in `send_journal_basic` (a `u8` is matched, so
every value from 8 up hits the wildcard arm). -/
def priorityDesc (priority : Nat) : List Nat :=
  match priority with
  | 0 => ascii "emergency"
  | 1 => ascii "alert"
  | 2 => ascii "critical"
  | 3 => ascii "error"
  | 4 => ascii "warning"
  | 5 => ascii "notice"
  | 6 => ascii "info"
  | 7 => ascii "debug"
  | _ => ascii "invalid priority"

/-- The ten `KEY=value` fields `send_journal_basic` hands to
`sd_journal_send`, in the order of the call. -/
def sendJournalFields (message_id message source source_man device device_id
    state : List Nat) (priority : Nat) (details : List Nat) :
    List (List Nat) :=
  [ ascii "MESSAGE_ID=" ++ message_id,
    ascii "DEVICE=" ++ device,
    ascii "DEVICE_ID=" ++ device_id,
    ascii "STATE=" ++ state,
    ascii "SOURCE=" ++ source,
    ascii "SOURCE_MAN=" ++ source_man,
    ascii "DETAILS=" ++ details,
    ascii "PRIORITY=" ++ decBytes priority,
    ascii "PRIORITY_DESC=" ++ priorityDesc priority,
    ascii "MESSAGE=" ++ message ]

/-- `send_journal_basic`.  Every argument goes through
`CString::new(format!(..)).unwrap()`, which aborts when the argument holds an
interior NUL byte (the `format!` prefixes, the decimal priority and the
priority description never do).  `rc` is the native `sd_journal_send` return
code. -/
def send_journal_basic (strerror : Int → String) (message_id message source
    source_man device device_id state : List Nat) (priority : Nat)
    (details : List Nat) (rc : Int) :
    RustOutcome ClibraryError Bool × List NativeCall :=
  if message_id.contains 0 || device.contains 0 || device_id.contains 0 ||
      state.contains 0 || source.contains 0 || source_man.contains 0 ||
      details.contains 0 || message.contains 0 then
    (.panicked, [])
  else
    let fields := sendJournalFields message_id message source source_man
      device device_id state priority details
    if rc < 0 then
      (.err (ClibraryError.new strerror "Error on sd_journal_send" rc),
       [NativeCall.send fields])
    else (.ok true, [NativeCall.send fields])

/-- One round of native responses consumed by an iteration of the `loop` in
`Iterator::next`: the `sd_journal_next` code, the `sd_journal_wait` code
(consulted only when `next_rc = 0`), and the `sd_journal_enumerate_data`
responses for `get_log_entry_map` (consulted only when `next_rc > 0`). -/
structure NativeStep where
  next_rc : Int
  wait_rc : Int
  entry_bufs : List (List Nat)
  entry_final_rc : Int
deriving DecidableEq, Repr

/-- `Iterator::next` for `Journal`.  The `loop` consumes one `NativeStep` per
iteration; an exhausted script (`[]`) models a run still inside the loop, so
the result is an `Option`, `none` meaning the loop has not returned yet.
`wait_rc` is compared against the `SdJournalWait` values: `Nop` returns
`None`, `Append`/`Invalidate` continue the loop, anything else is an error. -/
def Journal.next (strerror : Int → String) (j : Journal) :
    List NativeStep →
    Option (IterResult ClibraryError (List (List Nat × List Nat))) ×
      List NativeCall
  | [] => (none, [])
  | s :: rest =>
    if s.next_rc < 0 then
      (some (.item_err
        (ClibraryError.new strerror "Error on sd_journal_next" s.next_rc)),
       [NativeCall.next j.handle])
    else if s.next_rc = 0 then
      if s.wait_rc = SdJournalWait.Nop.val then
        (some .stop,
         [NativeCall.next j.handle, NativeCall.wait j.handle j.timeout_us])
      else if s.wait_rc = SdJournalWait.Append.val ∨
          s.wait_rc = SdJournalWait.Invalidate.val then
        let r := Journal.next strerror j rest
        (r.fst,
         NativeCall.next j.handle :: NativeCall.wait j.handle j.timeout_us ::
           r.snd)
      else
        (some (.item_err
          (ClibraryError.new strerror "Error on sd_journal_wait" s.wait_rc)),
         [NativeCall.next j.handle, NativeCall.wait j.handle j.timeout_us])
    else
      match Journal.get_log_entry_map strerror j s.entry_bufs
          s.entry_final_rc with
      | (.ok m, t) => (some (.item_ok m), NativeCall.next j.handle :: t)
      | (.err e, t) => (some (.item_err e), NativeCall.next j.handle :: t)
      | (.panicked, t) => (some .panicked, NativeCall.next j.handle :: t)

/-- A concrete `strerror` text function for instantiations. -/
def strerror0 : Int → String := fun _ => ""

/-- Well-formedness of one buffer handed back by the native enumerator, as the
decoding in `get_log_entry_map` requires to avoid aborting: the buffer is
valid UTF-8, and when it holds an `=` both the key slice and the value slice
are valid UTF-8. -/
def bufWellFormed (b : List Nat) : Bool :=
  utf8Valid b &&
    (match List.findIdx? (fun x => x == 61) b with
     | some m => utf8Valid (List.take m b) && utf8Valid (List.drop (m + 1) b)
     | none => true)

/-- The key part of a native `KEY=value` buffer (the whole buffer when it has
no `=`). -/
def bufKey (b : List Nat) : List Nat :=
  match List.findIdx? (fun x => x == 61) b with
  | some m => List.take m b
  | none => b

/-- The value part of a native `KEY=value` buffer. -/
def bufVal (b : List Nat) : List Nat :=
  match List.findIdx? (fun x => x == 61) b with
  | some m => List.drop (m + 1) b
  | none => []

theorem hashMapGet_insert_self (m : List (List Nat × List Nat))
    (k v : List Nat) : hashMapGet (hashMapInsert m k v) k = some v := by
  simp [hashMapGet, hashMapInsert, List.find?]

theorem find?_filter_ne (k k2 : List Nat) (h : k2 ≠ k) :
    ∀ m : List (List Nat × List Nat),
    List.find? (fun p => p.fst == k2)
        (List.filter (fun p => !(p.fst == k)) m) =
      List.find? (fun p => p.fst == k2) m := by
  intro m
  induction m with
  | nil => rfl
  | cons a t ih =>
    by_cases hak : a.fst = k
    · have h2 : (a.fst == k2) = false := by
        simp [hak]
        exact fun hh => h hh.symm
      have h2b : (k == k2) = false := by
        simp
        exact fun hh => h hh.symm
      simp [List.filter, List.find?, hak, h2, h2b, ih]
    · simp only [List.filter, List.find?]
      have h1 : (a.fst == k) = false := by simp [hak]
      simp only [h1, Bool.not_false, if_true]
      by_cases hk2 : a.fst = k2
      · simp [List.find?, hk2]
      · have h3 : (a.fst == k2) = false := by simp [hk2]
        simp [List.find?, h3, ih]

theorem hashMapGet_insert_ne (m : List (List Nat × List Nat))
    (k v k2 : List Nat) (h : k2 ≠ k) :
    hashMapGet (hashMapInsert m k v) k2 = hashMapGet m k2 := by
  have h1 : (k == k2) = false := by
    simp
    exact fun hh => h hh.symm
  simp [hashMapGet, hashMapInsert, List.find?, h1, find?_filter_ne k k2 h m]

theorem getLogEntryMapLoop_closeFree (strerror : Int → String) (h : Nat)
    (frc : Int) :
    ∀ (bufs : List (List Nat)) (acc : List (List Nat × List Nat)),
    List.filter NativeCall.isClose
        (getLogEntryMapLoop strerror h frc bufs acc).snd = [] := by
  intro bufs
  induction bufs with
  | nil =>
    intro acc
    simp [getLogEntryMapLoop, NativeCall.isClose]
  | cons b rest ih =>
    intro acc
    simp only [getLogEntryMapLoop]
    split
    · split
      · split
        · split
          · simp [NativeCall.isClose, ih]
          · simp [NativeCall.isClose]
        · simp [NativeCall.isClose]
      · simp [NativeCall.isClose, ih]
    · simp [NativeCall.isClose]

theorem getLogEntryMap_closeFree (strerror : Int → String) (j : Journal)
    (bufs : List (List Nat)) (frc : Int) :
    List.filter NativeCall.isClose
        (Journal.get_log_entry_map strerror j bufs frc).snd = [] := by
  simp [Journal.get_log_entry_map, NativeCall.isClose,
    getLogEntryMapLoop_closeFree]

theorem journalNext_closeFree (strerror : Int → String) (j : Journal) :
    ∀ steps : List NativeStep,
    List.filter NativeCall.isClose (Journal.next strerror j steps).snd
      = [] := by
  intro steps
  induction steps with
  | nil => simp [Journal.next]
  | cons s rest ih =>
    simp only [Journal.next]
    split
    · simp [NativeCall.isClose]
    · split
      · split
        · simp [NativeCall.isClose]
        · split
          · simp [NativeCall.isClose, ih]
          · simp [NativeCall.isClose]
      · have hc := getLogEntryMap_closeFree strerror j s.entry_bufs
          s.entry_final_rc
        cases hmm : Journal.get_log_entry_map strerror j s.entry_bufs
            s.entry_final_rc with
        | mk f t =>
          rw [hmm] at hc
          simp only at hc
          cases f <;> simp [NativeCall.isClose, hc]

theorem getLogEntryMapLoop_ne_panicked (strerror : Int → String) (h : Nat)
    (frc : Int) :
    ∀ (bufs : List (List Nat)) (acc : List (List Nat × List Nat)),
    (∀ b ∈ bufs, bufWellFormed b = true) →
    (getLogEntryMapLoop strerror h frc bufs acc).fst
      ≠ RustOutcome.panicked := by
  intro bufs
  induction bufs with
  | nil =>
    intro acc _
    simp only [getLogEntryMapLoop]
    split <;> simp
  | cons b rest ih =>
    intro acc hwf
    have hb : bufWellFormed b = true := hwf b (by simp)
    have hrest : ∀ x ∈ rest, bufWellFormed x = true :=
      fun x hx => hwf x (by simp [hx])
    simp only [bufWellFormed, Bool.and_eq_true] at hb
    obtain ⟨hv, hm⟩ := hb
    simp only [getLogEntryMapLoop, hv, if_true]
    cases hfind : List.findIdx? (fun x => x == 61) b with
    | none =>
      rw [hfind] at hm
      simp only
      exact ih _ hrest
    | some m =>
      rw [hfind] at hm
      simp only [Bool.and_eq_true] at hm
      obtain ⟨h1, h2⟩ := hm
      simp only [h1, h2, if_true]
      exact ih _ hrest

theorem getLogEntryMap_ne_panicked (strerror : Int → String) (j : Journal)
    (bufs : List (List Nat)) (frc : Int)
    (hwf : ∀ b ∈ bufs, bufWellFormed b = true) :
    (Journal.get_log_entry_map strerror j bufs frc).fst
      ≠ RustOutcome.panicked :=
  getLogEntryMapLoop_ne_panicked strerror j.handle frc bufs [] hwf

theorem journalNext_ne_panicked (strerror : Int → String) (j : Journal) :
    ∀ steps : List NativeStep,
    (∀ s ∈ steps, 0 < s.next_rc →
      ∀ b ∈ s.entry_bufs, bufWellFormed b = true) →
    (Journal.next strerror j steps).fst ≠ some IterResult.panicked := by
  intro steps
  induction steps with
  | nil =>
    intro _
    simp [Journal.next]
  | cons s rest ih =>
    intro hwf
    have hs := hwf s (by simp)
    have hrest : ∀ x ∈ rest, 0 < x.next_rc →
        ∀ b ∈ x.entry_bufs, bufWellFormed b = true :=
      fun x hx => hwf x (by simp [hx])
    simp only [Journal.next]
    split
    · simp
    · split
      · split
        · simp
        · split
          · exact ih hrest
          · simp
      · rename_i hneg hzero
        have hpos : 0 < s.next_rc := by omega
        have hp := getLogEntryMap_ne_panicked strerror j s.entry_bufs
          s.entry_final_rc (hs hpos)
        cases hmm : Journal.get_log_entry_map strerror j s.entry_bufs
            s.entry_final_rc with
        | mk f t =>
          rw [hmm] at hp
          simp only at hp
          cases f with
          | ok m => simp
          | err e => simp
          | panicked => exact absurd rfl hp

theorem getLogEntryMapLoop_err (strerror : Int → String) (h : Nat)
    (frc : Int) :
    ∀ (bufs : List (List Nat)) (acc : List (List Nat × List Nat))
      (e : ClibraryError),
    (getLogEntryMapLoop strerror h frc bufs acc).fst = RustOutcome.err e →
    e = ClibraryError.new strerror "Error on sd_journal_get_data" frc := by
  intro bufs
  induction bufs with
  | nil =>
    intro acc e he
    simp only [getLogEntryMapLoop] at he
    split at he
    · cases he
      rfl
    · cases he
  | cons b rest ih =>
    intro acc e he
    simp only [getLogEntryMapLoop] at he
    split at he
    · split at he
      · split at he
        · split at he
          · exact ih _ e he
          · cases he
        · cases he
      · exact ih _ e he
    · cases he

theorem getLogEntryMap_err (strerror : Int → String) (j : Journal)
    (bufs : List (List Nat)) (frc : Int) (e : ClibraryError)
    (he : (Journal.get_log_entry_map strerror j bufs frc).fst
      = RustOutcome.err e) :
    e = ClibraryError.new strerror "Error on sd_journal_get_data" frc :=
  getLogEntryMapLoop_err strerror j.handle frc bufs [] e he

theorem getLogEntryMapLoop_lookup (strerror : Int → String) (h : Nat) :
    ∀ (bufs : List (List Nat)) (acc : List (List Nat × List Nat)),
    (∀ b ∈ bufs, bufWellFormed b = true) →
    (∀ b ∈ bufs, (List.findIdx? (fun x => x == 61) b).isSome = true) →
    bufs.Pairwise (fun a b => bufKey a ≠ bufKey b) →
    ∃ mp, (getLogEntryMapLoop strerror h 0 bufs acc).fst = RustOutcome.ok mp ∧
      (∀ b ∈ bufs, hashMapGet mp (bufKey b) = some (bufVal b)) ∧
      (∀ k, (∀ b ∈ bufs, bufKey b ≠ k) →
        hashMapGet mp k = hashMapGet acc k) := by
  intro bufs
  induction bufs with
  | nil =>
    intro acc _ _ _
    refine ⟨acc, by simp [getLogEntryMapLoop], by simp, fun k _ => rfl⟩
  | cons b rest ih =>
    intro acc hwf hsome hpair
    have hb := hwf b (by simp)
    have hbs := hsome b (by simp)
    simp only [bufWellFormed, Bool.and_eq_true] at hb
    obtain ⟨hv, hm⟩ := hb
    cases hfind : List.findIdx? (fun x => x == 61) b with
    | none =>
      rw [hfind] at hbs
      simp at hbs
    | some m =>
      rw [hfind] at hm
      simp only [Bool.and_eq_true] at hm
      obtain ⟨h1, h2⟩ := hm
      have hkey : bufKey b = List.take m b := by simp [bufKey, hfind]
      have hval : bufVal b = List.drop (m + 1) b := by simp [bufVal, hfind]
      rw [List.pairwise_cons] at hpair
      obtain ⟨hhead, htail⟩ := hpair
      obtain ⟨mp, hok, hlook, hpres⟩ :=
        ih (hashMapInsert acc (List.take m b) (List.drop (m + 1) b))
          (fun x hx => hwf x (by simp [hx]))
          (fun x hx => hsome x (by simp [hx])) htail
      refine ⟨mp, ?_, ?_, ?_⟩
      · simp only [getLogEntryMapLoop, hv, if_true, hfind, h1, h2]
        exact hok
      · intro x hx
        rcases List.mem_cons.mp hx with hx1 | hx2
        · subst hx1
          have hne : ∀ b2 ∈ rest, bufKey b2 ≠ bufKey x :=
            fun b2 hb2 => (hhead b2 hb2).symm
          rw [hpres (bufKey x) hne, hkey, hval]
          exact hashMapGet_insert_self acc (List.take m x) (List.drop (m + 1) x)
        · exact hlook x hx2
      · intro k hk
        have h1k : bufKey b ≠ k := hk b (by simp)
        rw [hpres k (fun x hx => hk x (by simp [hx])), ← hkey]
        exact hashMapGet_insert_ne acc (bufKey b) _ k (Ne.symm h1k)

/-- C1: the only wrapper operation that closes the native journal handle is
`Drop::drop`, whose whole native-call trace is one `sd_journal_close` of the
handle owned by that `Journal` value; `Journal::new`, `get_log_entry`,
`get_log_entry_map`, `seek_tail`, `send_journal_basic` and `Iterator::next`
never emit a close, whatever the native library answers. -/
theorem C1_close_exactly_on_drop (strerror : Int → String) (j : Journal)
    (hnd : Nat) (rc_open rc_get rc_seek frc rc_send : Int)
    (key buf : List Nat) (bufs : List (List Nat))
    (message_id message source source_man device device_id state details :
      List Nat) (priority : Nat) (steps : List NativeStep) :
    (Journal.drop j).snd = [NativeCall.close j.handle] ∧
    List.filter NativeCall.isClose (Journal.new strerror hnd rc_open).snd
      = [] ∧
    List.filter NativeCall.isClose
      (Journal.get_log_entry strerror j key rc_get buf).snd = [] ∧
    List.filter NativeCall.isClose
      (Journal.get_log_entry_map strerror j bufs frc).snd = [] ∧
    List.filter NativeCall.isClose (Journal.seek_tail strerror j rc_seek).snd
      = [] ∧
    List.filter NativeCall.isClose
      (send_journal_basic strerror message_id message source source_man
        device device_id state priority details rc_send).snd = [] ∧
    List.filter NativeCall.isClose (Journal.next strerror j steps).snd
      = [] := by
  refine ⟨rfl, ?_, ?_, getLogEntryMap_closeFree strerror j bufs frc, ?_, ?_,
    journalNext_closeFree strerror j steps⟩
  · simp only [Journal.new]
    split <;> simp [NativeCall.isClose]
  · simp only [Journal.get_log_entry]
    split
    · simp
    · split
      · split
        · simp [NativeCall.isClose]
        · split <;> simp [NativeCall.isClose]
      · split <;> simp [NativeCall.isClose]
  · simp only [Journal.seek_tail]
    split <;> simp [NativeCall.isClose]
  · simp only [send_journal_basic]
    split
    · simp
    · split <;> simp [NativeCall.isClose]

/-- C2: when `sd_journal_next` reports no further entry (code 0),
`Iterator::next` calls `sd_journal_wait` with the `timeout_us` of the journal;
a `Nop` wait result makes `next` return `None`, an `Append` or `Invalidate`
result makes it retry the loop on the remaining native responses, and any
other wait result is returned as `Some(Err(e))` with `e.return_code` the wait
code. -/
theorem C2_next_wait_semantics (strerror : Int → String) (j : Journal)
    (s : NativeStep) (rest : List NativeStep) (h0 : s.next_rc = 0) :
    (s.wait_rc = SdJournalWait.Nop.val →
      Journal.next strerror j (s :: rest) =
        (some IterResult.stop,
         [NativeCall.next j.handle, NativeCall.wait j.handle j.timeout_us])) ∧
    (s.wait_rc = SdJournalWait.Append.val ∨
        s.wait_rc = SdJournalWait.Invalidate.val →
      Journal.next strerror j (s :: rest) =
        ((Journal.next strerror j rest).fst,
         NativeCall.next j.handle :: NativeCall.wait j.handle j.timeout_us ::
           (Journal.next strerror j rest).snd)) ∧
    (s.wait_rc ≠ SdJournalWait.Nop.val →
      s.wait_rc ≠ SdJournalWait.Append.val →
      s.wait_rc ≠ SdJournalWait.Invalidate.val →
      Journal.next strerror j (s :: rest) =
        (some (IterResult.item_err
          (ClibraryError.new strerror "Error on sd_journal_wait" s.wait_rc)),
         [NativeCall.next j.handle, NativeCall.wait j.handle j.timeout_us]) ∧
      (ClibraryError.new strerror "Error on sd_journal_wait"
        s.wait_rc).return_code = s.wait_rc) := by
  refine ⟨?_, ?_, ?_⟩
  · intro h1
    simp [Journal.next, h0, h1, SdJournalWait.val]
  · intro h1
    have hne : ¬s.wait_rc = SdJournalWait.Nop.val := by
      rcases h1 with h1 | h1 <;> simp [h1, SdJournalWait.val]
    simp [Journal.next, h0, h1, hne]
  · intro h1 h2 h3
    refine ⟨?_, rfl⟩
    have hor : ¬(s.wait_rc = SdJournalWait.Append.val ∨
        s.wait_rc = SdJournalWait.Invalidate.val) := by
      rintro (hh | hh) <;> [exact h2 hh; exact h3 hh]
    simp [Journal.next, h0, h1, hor]

/-- C2 witness: a concrete instantiation of each wait branch (`Nop` gives up,
`Append` retries on an empty remaining script, a negative wait code becomes
`Some(Err)` carrying it). -/
theorem C2_next_wait_semantics_witness :
    (Journal.next strerror0 { handle := 7, timeout_us := 100 }
        [{ next_rc := 0, wait_rc := 0, entry_bufs := [], entry_final_rc := 0 }]
      = (some IterResult.stop,
         [NativeCall.next 7, NativeCall.wait 7 100])) ∧
    (Journal.next strerror0 { handle := 7, timeout_us := 100 }
        [{ next_rc := 0, wait_rc := 1, entry_bufs := [], entry_final_rc := 0 }]
      = ((Journal.next strerror0 { handle := 7, timeout_us := 100 } []).fst,
         NativeCall.next 7 :: NativeCall.wait 7 100 ::
           (Journal.next strerror0 { handle := 7, timeout_us := 100 } []).snd)) ∧
    Journal.next strerror0 { handle := 7, timeout_us := 100 }
        [{ next_rc := 0, wait_rc := -9, entry_bufs := [], entry_final_rc := 0 }]
      = (some (IterResult.item_err
          (ClibraryError.new strerror0 "Error on sd_journal_wait" (-9))),
         [NativeCall.next 7, NativeCall.wait 7 100]) :=
  ⟨(C2_next_wait_semantics strerror0 { handle := 7, timeout_us := 100 }
      { next_rc := 0, wait_rc := 0, entry_bufs := [], entry_final_rc := 0 } []
      rfl).1 rfl,
   (C2_next_wait_semantics strerror0 { handle := 7, timeout_us := 100 }
      { next_rc := 0, wait_rc := 1, entry_bufs := [], entry_final_rc := 0 } []
      rfl).2.1 (Or.inl rfl),
   ((C2_next_wait_semantics strerror0 { handle := 7, timeout_us := 100 }
      { next_rc := 0, wait_rc := -9, entry_bufs := [], entry_final_rc := 0 } []
      rfl).2.2 (by decide) (by decide) (by decide)).1⟩

/-- C5: `Journal::new` returns `Err` exactly when the native
`sd_journal_open` code is nonzero, the error carrying that code unchanged;
on a zero code it returns `Ok` with the handle the native call produced and
`timeout_us` initialized to `u64::MAX`. -/
theorem C5_new_result (strerror : Int → String) (hnd : Nat) (rc : Int) :
    (rc ≠ 0 →
      (Journal.new strerror hnd rc).fst =
        RustOutcome.err
          (ClibraryError.new strerror "Error on sd_journal_open" rc) ∧
      (ClibraryError.new strerror "Error on sd_journal_open" rc).return_code
        = rc) ∧
    (rc = 0 →
      (Journal.new strerror hnd rc).fst =
        RustOutcome.ok { handle := hnd, timeout_us := u64MAX } ∧
      u64MAX = 2 ^ 64 - 1) := by
  constructor
  · intro hh
    exact ⟨by simp [Journal.new, hh], rfl⟩
  · intro hh
    exact ⟨by simp [Journal.new, hh], rfl⟩

/-- C5 witness: instantiation at a failing open (`rc = -1`) and at a
successful open (`rc = 0`, native handle 42). -/
theorem C5_new_result_witness :
    (Journal.new strerror0 42 (-1)).fst =
      RustOutcome.err
        (ClibraryError.new strerror0 "Error on sd_journal_open" (-1)) ∧
    (Journal.new strerror0 42 0).fst =
      RustOutcome.ok { handle := 42, timeout_us := u64MAX } :=
  ⟨((C5_new_result strerror0 42 (-1)).1 (by decide)).1,
   ((C5_new_result strerror0 42 0).2 rfl).1⟩

/-- C9: when the native lookup reports ENOENT (`rc = -2`),
`get_log_entry` returns `Ok` with the empty string, the same result it
returns for a successful lookup whose buffer has an empty value part
(an 8-byte buffer), so a missing field and an empty field coincide at the
interface. -/
theorem C9_missing_field_is_empty (strerror : Int → String) (j : Journal)
    (key buf buf2 : List Nat) (hkey : key.contains 0 = false)
    (hlen : buf2.length = 8) :
    (Journal.get_log_entry strerror j key (-2) buf).fst
      = RustOutcome.ok [] ∧
    (Journal.get_log_entry strerror j key 0 buf2).fst
      = RustOutcome.ok [] := by
  have hd : buf2.drop 8 = [] := List.drop_eq_nil_of_le (by omega)
  have hk2 : 0 ∉ key := by simpa using hkey
  constructor
  · simp [Journal.get_log_entry, hk2]
  · simp [Journal.get_log_entry, hk2, hlen, hd,
      show utf8Valid [] = true from rfl]

/-- C9 witness: instantiation with the key `MESSAGE`, any buffer for the
missing-field case, and the buffer `MESSAGE=` (empty value) for the
present-field case. -/
theorem C9_missing_field_is_empty_witness :
    (Journal.get_log_entry strerror0 { handle := 3, timeout_us := 0 }
        (ascii "MESSAGE") (-2) []).fst = RustOutcome.ok [] ∧
    (Journal.get_log_entry strerror0 { handle := 3, timeout_us := 0 }
        (ascii "MESSAGE") 0 (ascii "MESSAGE=")).fst = RustOutcome.ok [] :=
  C9_missing_field_is_empty strerror0 { handle := 3, timeout_us := 0 }
    (ascii "MESSAGE") [] (ascii "MESSAGE=") (by decide) (by decide)

/-- C3 (code bug): `get_log_entry` strips a fixed 8 bytes from the native
`KEY=value` buffer (`slice[8..len]`) instead of the key and its `=`
delimiter.  For the 8-byte key `PRIORITY` with buffer `PRIORITY=3` it
returns `=3`, not the value `3`; only for a 7-byte key such as `MESSAGE` do
the 8 stripped bytes coincide with the key plus delimiter. -/
theorem C3_fixed_offset_not_key_length :
    (Journal.get_log_entry strerror0 { handle := 0, timeout_us := 0 }
        (ascii "PRIORITY") 0 (ascii "PRIORITY=3")).fst
      = RustOutcome.ok (ascii "=3") ∧
    ascii "=3" ≠ ascii "3" ∧
    (Journal.get_log_entry strerror0 { handle := 0, timeout_us := 0 }
        (ascii "MESSAGE") 0 (ascii "MESSAGE=hi")).fst
      = RustOutcome.ok (ascii "hi") := by
  refine ⟨by decide, by decide, by decide⟩

/-- C6 counterexample: `send_journal_basic` panics (aborts in
`CString::new(..).unwrap()`) when the message string holds an interior NUL
byte, instead of completing with `Ok` or `Err`. -/
theorem C6_nul_byte_panics :
    (send_journal_basic strerror0 [] [0] [] [] [] [] [] 3 [] 0).fst
      = RustOutcome.panicked := by decide

/-- C6 (amended): no operation panics provided the strings given to
`send_journal_basic` and the lookup key hold no interior NUL byte, every
buffer the native enumerator hands back is valid UTF-8 around its `=`
split, and a successful `sd_journal_get_data` buffer is at least 8 bytes
long with a valid UTF-8 tail. -/
theorem C6_no_panic_for_wellformed_inputs (strerror : Int → String)
    (j : Journal) (key buf : List Nat) (rc : Int) (bufs : List (List Nat))
    (frc : Int)
    (message_id message source source_man device device_id state details :
      List Nat) (priority : Nat) (rc_send : Int) (steps : List NativeStep)
    (hkey : key.contains 0 = false)
    (hbuf : rc = 0 → 8 ≤ buf.length ∧ utf8Valid (buf.drop 8) = true)
    (hbufs : ∀ b ∈ bufs, bufWellFormed b = true)
    (hsend : message_id.contains 0 = false ∧ message.contains 0 = false ∧
      source.contains 0 = false ∧ source_man.contains 0 = false ∧
      device.contains 0 = false ∧ device_id.contains 0 = false ∧
      state.contains 0 = false ∧ details.contains 0 = false)
    (hsteps : ∀ s ∈ steps, 0 < s.next_rc →
      ∀ b ∈ s.entry_bufs, bufWellFormed b = true) :
    (Journal.get_log_entry strerror j key rc buf).fst
      ≠ RustOutcome.panicked ∧
    (Journal.get_log_entry_map strerror j bufs frc).fst
      ≠ RustOutcome.panicked ∧
    (send_journal_basic strerror message_id message source source_man device
        device_id state priority details rc_send).fst
      ≠ RustOutcome.panicked ∧
    (Journal.next strerror j steps).fst ≠ some IterResult.panicked := by
  refine ⟨?_, getLogEntryMap_ne_panicked strerror j bufs frc hbufs, ?_,
    journalNext_ne_panicked strerror j steps hsteps⟩
  · have hk2 : 0 ∉ key := by simpa using hkey
    simp only [Journal.get_log_entry]
    by_cases h0 : rc = 0
    · obtain ⟨hl, hv⟩ := hbuf h0
      have hnl : ¬buf.length < 8 := by omega
      simp [hk2, h0, hnl, hv]
    · by_cases h2 : rc = -2 <;> simp [hk2, h0, h2]
  · obtain ⟨h1, h2, h3, h4, h5, h6, h7, h8⟩ := hsend
    have g1 : 0 ∉ message_id := by simpa using h1
    have g2 : 0 ∉ message := by simpa using h2
    have g3 : 0 ∉ source := by simpa using h3
    have g4 : 0 ∉ source_man := by simpa using h4
    have g5 : 0 ∉ device := by simpa using h5
    have g6 : 0 ∉ device_id := by simpa using h6
    have g7 : 0 ∉ state := by simpa using h7
    have g8 : 0 ∉ details := by simpa using h8
    simp only [send_journal_basic]
    split
    · rename_i hcond
      simp [g1, g2, g3, g4, g5, g6, g7, g8] at hcond
    · split <;> simp

/-- C6 amended-claim witness: a concrete all-ASCII instantiation of every
operation (a successful `MESSAGE=hi` lookup, a two-field enumeration, a send
with priority 4, and one iterator step) completes without a panic. -/
theorem C6_no_panic_for_wellformed_inputs_witness :
    (Journal.get_log_entry strerror0 { handle := 1, timeout_us := 5 }
        (ascii "MESSAGE") 0 (ascii "MESSAGE=hi")).fst
      ≠ RustOutcome.panicked ∧
    (Journal.get_log_entry_map strerror0 { handle := 1, timeout_us := 5 }
        [ascii "MESSAGE=hi", ascii "PRIORITY=6"] 0).fst
      ≠ RustOutcome.panicked ∧
    (send_journal_basic strerror0 (ascii "ab") (ascii "msg") (ascii "src")
        (ascii "man") (ascii "dev") (ascii "id") (ascii "ok") 4
        (ascii "det") 0).fst ≠ RustOutcome.panicked ∧
    (Journal.next strerror0 { handle := 1, timeout_us := 5 }
        [{ next_rc := 1, wait_rc := 0, entry_bufs := [ascii "MESSAGE=hi"],
           entry_final_rc := 0 }]).fst ≠ some IterResult.panicked :=
  C6_no_panic_for_wellformed_inputs strerror0 { handle := 1, timeout_us := 5 }
    (ascii "MESSAGE") (ascii "MESSAGE=hi") 0
    [ascii "MESSAGE=hi", ascii "PRIORITY=6"] 0
    (ascii "ab") (ascii "msg") (ascii "src") (ascii "man") (ascii "dev")
    (ascii "id") (ascii "ok") (ascii "det") 4 0
    [{ next_rc := 1, wait_rc := 0, entry_bufs := [ascii "MESSAGE=hi"],
       entry_final_rc := 0 }]
    (by decide) (fun _ => by decide) (by decide)
    ⟨by decide, by decide, by decide, by decide, by decide, by decide,
     by decide, by decide⟩ (by decide)

theorem journalNext_err (strerror : Int → String) (j : Journal) :
    ∀ (steps : List NativeStep) (e : ClibraryError),
    (Journal.next strerror j steps).fst = some (IterResult.item_err e) →
    e.err_reason = strerror (-e.return_code) ∧
    ∃ s ∈ steps, e.return_code = s.next_rc ∨ e.return_code = s.wait_rc ∨
      e.return_code = s.entry_final_rc := by
  intro steps
  induction steps with
  | nil =>
    intro e he
    simp [Journal.next] at he
  | cons s rest ih =>
    intro e he
    simp only [Journal.next] at he
    split at he
    · simp only [Option.some.injEq, IterResult.item_err.injEq] at he
      subst he
      exact ⟨rfl, s, by simp, Or.inl rfl⟩
    · split at he
      · split at he
        · simp at he
        · split at he
          · obtain ⟨h1, s2, hs2, h3⟩ := ih e he
            exact ⟨h1, s2, by simp [hs2], h3⟩
          · simp only [Option.some.injEq, IterResult.item_err.injEq] at he
            subst he
            exact ⟨rfl, s, by simp, Or.inr (Or.inl rfl)⟩
      · cases hmm : Journal.get_log_entry_map strerror j s.entry_bufs
            s.entry_final_rc with
        | mk f t =>
          rw [hmm] at he
          cases f with
          | ok m => simp at he
          | err e2 =>
            simp only [Option.some.injEq, IterResult.item_err.injEq] at he
            have hfst : (Journal.get_log_entry_map strerror j s.entry_bufs
                s.entry_final_rc).fst = RustOutcome.err e2 := by
              rw [hmm]
            have h3 := getLogEntryMap_err strerror j s.entry_bufs
              s.entry_final_rc e2 hfst
            rw [← he, h3]
            exact ⟨rfl, s, by simp, Or.inr (Or.inr rfl)⟩
          | panicked => simp at he

/-- C7: every error any operation returns is a `ClibraryError` whose
`return_code` is the return code of the native call, unchanged, and whose
`err_reason` is the `strerror` text for the negation of that code: for
`new`, `get_log_entry`, `get_log_entry_map`, `seek_tail` and
`send_journal_basic` the code of the one fallible native call, and for
`Iterator::next` the code of whichever native call failed during its loop
(`sd_journal_next`, `sd_journal_wait` or the final enumeration code). -/
theorem C7_error_fields_from_native_code (strerror : Int → String)
    (j : Journal) (hnd : Nat) (rc_open rc_get rc_seek frc rc_send : Int)
    (key buf : List Nat) (bufs : List (List Nat))
    (message_id message source source_man device device_id state details :
      List Nat) (priority : Nat) (steps : List NativeStep) :
    (∀ e, (Journal.new strerror hnd rc_open).fst = RustOutcome.err e →
      e.return_code = rc_open ∧ e.err_reason = strerror (-rc_open)) ∧
    (∀ e, (Journal.get_log_entry strerror j key rc_get buf).fst
        = RustOutcome.err e →
      e.return_code = rc_get ∧ e.err_reason = strerror (-rc_get)) ∧
    (∀ e, (Journal.get_log_entry_map strerror j bufs frc).fst
        = RustOutcome.err e →
      e.return_code = frc ∧ e.err_reason = strerror (-frc)) ∧
    (∀ e, (Journal.seek_tail strerror j rc_seek).fst = RustOutcome.err e →
      e.return_code = rc_seek ∧ e.err_reason = strerror (-rc_seek)) ∧
    (∀ e, (send_journal_basic strerror message_id message source source_man
        device device_id state priority details rc_send).fst
        = RustOutcome.err e →
      e.return_code = rc_send ∧ e.err_reason = strerror (-rc_send)) ∧
    (∀ e, (Journal.next strerror j steps).fst
        = some (IterResult.item_err e) →
      e.err_reason = strerror (-e.return_code) ∧
      ∃ s ∈ steps, e.return_code = s.next_rc ∨ e.return_code = s.wait_rc ∨
        e.return_code = s.entry_final_rc) := by
  refine ⟨?_, ?_, ?_, ?_, ?_, fun e he => journalNext_err strerror j steps e he⟩
  · intro e he
    simp only [Journal.new] at he
    split at he
    · simp only [RustOutcome.err.injEq] at he
      rw [← he]
      exact ⟨rfl, rfl⟩
    · simp at he
  · intro e he
    simp only [Journal.get_log_entry] at he
    split at he
    · simp at he
    · split at he
      · split at he
        · simp at he
        · split at he <;> simp at he
      · split at he
        · simp at he
        · simp only [RustOutcome.err.injEq] at he
          rw [← he]
          exact ⟨rfl, rfl⟩
  · intro e he
    have h3 := getLogEntryMap_err strerror j bufs frc e he
    rw [h3]
    exact ⟨rfl, rfl⟩
  · intro e he
    simp only [Journal.seek_tail] at he
    split at he
    · simp only [RustOutcome.err.injEq] at he
      rw [← he]
      exact ⟨rfl, rfl⟩
    · simp at he
  · intro e he
    simp only [send_journal_basic] at he
    split at he
    · simp at he
    · split at he
      · simp only [RustOutcome.err.injEq] at he
        rw [← he]
        exact ⟨rfl, rfl⟩
      · simp at he

/-- C7 witness: a failing `seek_tail` (native code `-5`) produces an error
whose `return_code` is `-5` and whose `err_reason` is the `strerror` text
for `5`. -/
theorem C7_error_fields_from_native_code_witness :
    (ClibraryError.new strerror0 "Error on sd_journal_seek_tail"
      (-5)).return_code = -5 ∧
    (ClibraryError.new strerror0 "Error on sd_journal_seek_tail"
      (-5)).err_reason = strerror0 5 :=
  (C7_error_fields_from_native_code strerror0 { handle := 1, timeout_us := 0 }
      0 0 0 (-5) 0 0 [] [] [] [] [] [] [] [] [] [] [] 0 []).2.2.2.1
    (ClibraryError.new strerror0 "Error on sd_journal_seek_tail" (-5))
    (by decide)

/-- C8: `send_journal_basic` formats each parameter as an equals-delimited
field (MESSAGE_ID, DEVICE, DEVICE_ID, STATE, SOURCE, SOURCE_MAN, DETAILS,
PRIORITY, PRIORITY_DESC, MESSAGE), submits exactly these ten fields in one
native `sd_journal_send` call, and returns `Ok(true)` when the native code
is nonnegative and `Err` carrying the code when it is negative. -/
theorem C8_send_formats_and_reports (strerror : Int → String)
    (message_id message source source_man device device_id state details :
      List Nat) (priority : Nat) (rc : Int)
    (hnul : message_id.contains 0 = false ∧ message.contains 0 = false ∧
      source.contains 0 = false ∧ source_man.contains 0 = false ∧
      device.contains 0 = false ∧ device_id.contains 0 = false ∧
      state.contains 0 = false ∧ details.contains 0 = false) :
    sendJournalFields message_id message source source_man device device_id
        state priority details =
      [ascii "MESSAGE_ID=" ++ message_id,
       ascii "DEVICE=" ++ device,
       ascii "DEVICE_ID=" ++ device_id,
       ascii "STATE=" ++ state,
       ascii "SOURCE=" ++ source,
       ascii "SOURCE_MAN=" ++ source_man,
       ascii "DETAILS=" ++ details,
       ascii "PRIORITY=" ++ decBytes priority,
       ascii "PRIORITY_DESC=" ++ priorityDesc priority,
       ascii "MESSAGE=" ++ message] ∧
    (send_journal_basic strerror message_id message source source_man device
        device_id state priority details rc).snd =
      [NativeCall.send (sendJournalFields message_id message source
        source_man device device_id state priority details)] ∧
    (0 ≤ rc →
      (send_journal_basic strerror message_id message source source_man
        device device_id state priority details rc).fst
        = RustOutcome.ok true) ∧
    (rc < 0 →
      (send_journal_basic strerror message_id message source source_man
          device device_id state priority details rc).fst =
        RustOutcome.err
          (ClibraryError.new strerror "Error on sd_journal_send" rc) ∧
      (ClibraryError.new strerror "Error on sd_journal_send" rc).return_code
        = rc) := by
  obtain ⟨h1, h2, h3, h4, h5, h6, h7, h8⟩ := hnul
  have hcond : (message_id.contains 0 || device.contains 0 ||
      device_id.contains 0 || state.contains 0 || source.contains 0 ||
      source_man.contains 0 || details.contains 0 || message.contains 0)
      = false := by
    simp only [h1, h2, h3, h4, h5, h6, h7, h8, Bool.or_false, Bool.or_self]
  have g1 : 0 ∉ message_id := by simpa using h1
  have g2 : 0 ∉ message := by simpa using h2
  have g3 : 0 ∉ source := by simpa using h3
  have g4 : 0 ∉ source_man := by simpa using h4
  have g5 : 0 ∉ device := by simpa using h5
  have g6 : 0 ∉ device_id := by simpa using h6
  have g7 : 0 ∉ state := by simpa using h7
  have g8 : 0 ∉ details := by simpa using h8
  refine ⟨rfl, ?_, ?_, ?_⟩
  · simp only [send_journal_basic, hcond, Bool.false_eq_true, if_false]
    split <;> rfl
  · intro hge
    have hnlt : ¬rc < 0 := by omega
    simp [send_journal_basic, hnlt, g1, g2, g3, g4, g5, g6, g7, g8]
  · intro hlt
    refine ⟨?_, rfl⟩
    simp [send_journal_basic, hlt, g1, g2, g3, g4, g5, g6, g7, g8]

/-- C8 witness: a concrete all-ASCII send (native code 0, then native code
`-3`) showing the submitted field list, the `Ok(true)` result and the `Err`
result carrying `-3`. -/
theorem C8_send_formats_and_reports_witness :
    (send_journal_basic strerror0 (ascii "ab") (ascii "msg") (ascii "src")
        (ascii "man") (ascii "dev") (ascii "id") (ascii "ok") 3
        (ascii "det") 0).snd =
      [NativeCall.send (sendJournalFields (ascii "ab") (ascii "msg")
        (ascii "src") (ascii "man") (ascii "dev") (ascii "id") (ascii "ok")
        3 (ascii "det"))] ∧
    (send_journal_basic strerror0 (ascii "ab") (ascii "msg") (ascii "src")
        (ascii "man") (ascii "dev") (ascii "id") (ascii "ok") 3
        (ascii "det") 0).fst = RustOutcome.ok true ∧
    (send_journal_basic strerror0 (ascii "ab") (ascii "msg") (ascii "src")
        (ascii "man") (ascii "dev") (ascii "id") (ascii "ok") 3
        (ascii "det") (-3)).fst =
      RustOutcome.err
        (ClibraryError.new strerror0 "Error on sd_journal_send" (-3)) :=
  ⟨(C8_send_formats_and_reports strerror0 (ascii "ab") (ascii "msg")
      (ascii "src") (ascii "man") (ascii "dev") (ascii "id") (ascii "ok")
      (ascii "det") 3 0
      ⟨by decide, by decide, by decide, by decide, by decide, by decide,
       by decide, by decide⟩).2.1,
   (C8_send_formats_and_reports strerror0 (ascii "ab") (ascii "msg")
      (ascii "src") (ascii "man") (ascii "dev") (ascii "id") (ascii "ok")
      (ascii "det") 3 0
      ⟨by decide, by decide, by decide, by decide, by decide, by decide,
       by decide, by decide⟩).2.2.1 (by decide),
   ((C8_send_formats_and_reports strerror0 (ascii "ab") (ascii "msg")
      (ascii "src") (ascii "man") (ascii "dev") (ascii "id") (ascii "ok")
      (ascii "det") 3 (-3)
      ⟨by decide, by decide, by decide, by decide, by decide, by decide,
       by decide, by decide⟩).2.2.2 (by decide)).1⟩

/-- C10: the PRIORITY_DESC table maps priorities 0 through 7 to emergency,
alert, critical, error, warning, notice, info and debug, every priority
from 8 up (hence all of 8 through 255 for a `u8`) to `invalid priority`,
and an out-of-range priority is still submitted: the send succeeds whenever
the native code is nonnegative, with PRIORITY_DESC among the submitted
fields through `sendJournalFields`. -/
theorem C10_priority_description_table (strerror : Int → String)
    (message_id message source source_man device device_id state details :
      List Nat) (p : Nat) (rc : Int) (hp : p ≤ 255)
    (hnul : message_id.contains 0 = false ∧ message.contains 0 = false ∧
      source.contains 0 = false ∧ source_man.contains 0 = false ∧
      device.contains 0 = false ∧ device_id.contains 0 = false ∧
      state.contains 0 = false ∧ details.contains 0 = false) :
    priorityDesc 0 = ascii "emergency" ∧
    priorityDesc 1 = ascii "alert" ∧
    priorityDesc 2 = ascii "critical" ∧
    priorityDesc 3 = ascii "error" ∧
    priorityDesc 4 = ascii "warning" ∧
    priorityDesc 5 = ascii "notice" ∧
    priorityDesc 6 = ascii "info" ∧
    priorityDesc 7 = ascii "debug" ∧
    (8 ≤ p → priorityDesc p = ascii "invalid priority") ∧
    (0 ≤ rc →
      (send_journal_basic strerror message_id message source source_man
        device device_id state p details rc).fst = RustOutcome.ok true ∧
      (send_journal_basic strerror message_id message source source_man
        device device_id state p details rc).snd =
        [NativeCall.send (sendJournalFields message_id message source
          source_man device device_id state p details)]) := by
  obtain ⟨h1, h2, h3, h4, h5, h6, h7, h8⟩ := hnul
  have hcond : (message_id.contains 0 || device.contains 0 ||
      device_id.contains 0 || state.contains 0 || source.contains 0 ||
      source_man.contains 0 || details.contains 0 || message.contains 0)
      = false := by
    simp only [h1, h2, h3, h4, h5, h6, h7, h8, Bool.or_false, Bool.or_self]
  have g1 : 0 ∉ message_id := by simpa using h1
  have g2 : 0 ∉ message := by simpa using h2
  have g3 : 0 ∉ source := by simpa using h3
  have g4 : 0 ∉ source_man := by simpa using h4
  have g5 : 0 ∉ device := by simpa using h5
  have g6 : 0 ∉ device_id := by simpa using h6
  have g7 : 0 ∉ state := by simpa using h7
  have g8 : 0 ∉ details := by simpa using h8
  refine ⟨rfl, rfl, rfl, rfl, rfl, rfl, rfl, rfl, ?_, ?_⟩
  · intro h8p
    rw [priorityDesc.eq_def]
    split <;> first | omega | rfl
  · intro hge
    have hnlt : ¬rc < 0 := by omega
    constructor
    · simp [send_journal_basic, hnlt, g1, g2, g3, g4, g5, g6, g7, g8]
    · simp only [send_journal_basic, hcond, Bool.false_eq_true, if_false]
      split <;> rfl

/-- C10 witness: the out-of-range priority 9 yields the description
`invalid priority` yet the entry is still submitted and accepted. -/
theorem C10_priority_description_table_witness :
    priorityDesc 9 = ascii "invalid priority" ∧
    (send_journal_basic strerror0 [] [] [] [] [] [] [] 9 [] 0).fst
      = RustOutcome.ok true :=
  ⟨(C10_priority_description_table strerror0 [] [] [] [] [] [] [] [] 9 0
      (by decide)
      ⟨rfl, rfl, rfl, rfl, rfl, rfl, rfl, rfl⟩).2.2.2.2.2.2.2.2.1
      (by decide),
   ((C10_priority_description_table strerror0 [] [] [] [] [] [] [] [] 9 0
      (by decide)
      ⟨rfl, rfl, rfl, rfl, rfl, rfl, rfl, rfl⟩).2.2.2.2.2.2.2.2.2
      (by decide)).1⟩

/-- C4: on a clean enumeration (final native code 0) over well-formed
`KEY=value` buffers with pairwise distinct keys, `get_log_entry_map`
returns `Ok` with a map in which the key of every enumerated buffer looks up
exactly the value of that buffer. -/
theorem C4_entry_map_contains_all_fields (strerror : Int → String)
    (j : Journal) (bufs : List (List Nat))
    (hwf : ∀ b ∈ bufs, bufWellFormed b = true)
    (hsome : ∀ b ∈ bufs, (List.findIdx? (fun x => x == 61) b).isSome = true)
    (hkeys : bufs.Pairwise (fun a b => bufKey a ≠ bufKey b)) :
    ∃ mp, (Journal.get_log_entry_map strerror j bufs 0).fst
        = RustOutcome.ok mp ∧
      ∀ b ∈ bufs, hashMapGet mp (bufKey b) = some (bufVal b) := by
  obtain ⟨mp, hok, hlook, _⟩ :=
    getLogEntryMapLoop_lookup strerror j.handle bufs [] hwf hsome hkeys
  exact ⟨mp, hok, hlook⟩

/-- C4 witness: a two-field entry (`MESSAGE=hello`, `PRIORITY=6`) whose map
holds both key/value pairs. -/
theorem C4_entry_map_contains_all_fields_witness :
    ∃ mp, (Journal.get_log_entry_map strerror0 { handle := 2, timeout_us := 9 }
        [ascii "MESSAGE=hello", ascii "PRIORITY=6"] 0).fst
        = RustOutcome.ok mp ∧
      ∀ b ∈ [ascii "MESSAGE=hello", ascii "PRIORITY=6"],
        hashMapGet mp (bufKey b) = some (bufVal b) :=
  C4_entry_map_contains_all_fields strerror0 { handle := 2, timeout_us := 9 }
    [ascii "MESSAGE=hello", ascii "PRIORITY=6"]
    (by decide) (by decide) (by decide)
